import Mathlib

/-!
# Verification of the PPG Health Monitor (BMET2922 Major Project)

A shallow embedding, in Lean 4, of the parts of the PPG Health Monitor
desktop application that the specification's claims are about:

* the 109-byte little-endian wire frame of `BluetoothMonitor`
  (`src/gui/core/bluetooth_monitor.py`, `STRUCT_FORMAT = "<L50HfB"`);
* the JSON-backed account store `UserManager`
  (`src/ppg_health_monitor/ui_components/user_manager.py`);
* the HRV time-domain metrics of `SignalProcessingUtils`
  (`src/gui/utils/signal_processing_utils.py`);
* the session/alarm state machine of `LiveMonitorTab` and the packet
  dispatch of `MainWindow` (`src/gui/ui_tabs/live_monitor_tab.py`,
  `src/gui/main_window.py`);
* the session filter of `HistoryTab` (`src/gui/ui_tabs/history_tab.py`).

Machine floats are modelled by `ℚ` (exact arithmetic); the `float32 bpm`
wire field is modelled by its 32-bit pattern, which is what the struct
codec actually transports.  Square roots taken by the HRV code are
modelled over `ℝ`.  Wall-clock reads (`datetime.now()`) are passed in as
explicit parameters.
-/

namespace PPG

/-! ## Wire protocol (`BluetoothMonitor.STRUCT_FORMAT = "<L50HfB"`)

A frame is a list of byte values.  `encodePacket` is the packing of the
documented layout (uint32 at offset 0, fifty uint16 from offset 4,
float32 bit pattern at offset 104, uint8 at offset 108, little-endian
throughout); `decodePacket` mirrors the unpacking in
`BluetoothMonitor.monitor` (`struct.unpack` of a 109-byte read followed
by `data[0]`, `data[1:51]`, `data[51]`, `data[52]`). -/

/-- The four fields of a wire frame.  The `float32 bpm` is represented by
its IEEE-754 bit pattern `bpmBits` (a `uint32`): the struct codec moves
those 32 bits verbatim, so bit-level identity is float identity. -/
structure DataPacket where
  sequence : Nat
  ppg_values : List Nat
  bpmBits : Nat
  mode : Nat
  deriving DecidableEq

/-- Little-endian encoding of one `uint16`. -/
def encodeU16 (n : Nat) : List Nat :=
  [n % 256, n / 256 % 256]

/-- Little-endian encoding of one `uint32`. -/
def encodeU32 (n : Nat) : List Nat :=
  [n % 256, n / 256 % 256, n / 65536 % 256, n / 16777216 % 256]

/-- Little-endian encoding of a run of `uint16` values (`50H`). -/
def encodeU16s : List Nat → List Nat
  | [] => []
  | x :: xs => x % 256 :: x / 256 % 256 :: encodeU16s xs

/-- Packing a frame per the documented `<L50HfB` layout. -/
def encodePacket (p : DataPacket) : List Nat :=
  encodeU32 p.sequence ++ encodeU16s p.ppg_values ++ encodeU32 p.bpmBits ++ [p.mode]

/-- Read a little-endian `uint16` at byte offset `i`. -/
def readU16 (bs : List Nat) (i : Nat) : Nat :=
  bs.getD i 0 + 256 * bs.getD (i + 1) 0

/-- Read a little-endian `uint32` at byte offset `i`. -/
def readU32 (bs : List Nat) (i : Nat) : Nat :=
  bs.getD i 0 + 256 * bs.getD (i + 1) 0 + 65536 * bs.getD (i + 2) 0 +
    16777216 * bs.getD (i + 3) 0

/-- Read `n` consecutive little-endian `uint16` values. -/
def readU16s : Nat → List Nat → List Nat
  | 0, _ => []
  | n + 1, bs => readU16 bs 0 :: readU16s n (bs.drop 2)

/-- Unpacking per `BluetoothMonitor.monitor`: the read must return exactly
`STRUCT_SIZE = 109` bytes (`if len(packet) == self.STRUCT_SIZE`), and the
tuple is split as `sequence = data[0]`, `ppg_values = data[1:51]`,
`bpm = data[51]`, `mode = data[52]`. -/
def decodePacket (bs : List Nat) : Option DataPacket :=
  if bs.length = 109 then
    some ⟨readU32 bs 0, readU16s 50 (bs.drop 4), readU32 bs 104, bs.getD 108 0⟩
  else
    none

theorem encodeU16s_length (l : List Nat) : (encodeU16s l).length = 2 * l.length := by
  induction l with
  | nil => rfl
  | cons x xs ih => simp [encodeU16s, ih]; omega

theorem readU32_encodeU32 (n : Nat) (rest : List Nat) (h : n < 4294967296) :
    readU32 (encodeU32 n ++ rest) 0 = n := by
  simp [readU32, encodeU32, List.getD]
  omega

theorem readU16s_encodeU16s (l : List Nat) (rest : List Nat)
    (h : ∀ x ∈ l, x < 65536) :
    readU16s l.length (encodeU16s l ++ rest) = l := by
  induction l with
  | nil => rfl
  | cons x xs ih =>
    have hx : x < 65536 := h x (by simp)
    have hxs : ∀ y ∈ xs, y < 65536 := fun y hy => h y (by simp [hy])
    simp only [encodeU16s, List.length_cons, readU16s, List.cons_append, List.drop_succ_cons,
      List.drop_zero, List.cons.injEq]
    constructor
    · simp [readU16, List.getD]
      omega
    · exact ih hxs

theorem getD_append_skip (l rest : List Nat) (i : Nat) :
    (l ++ rest).getD (l.length + i) 0 = rest.getD i 0 := by
  simp only [List.getD, List.get?_eq_getElem?]
  rw [List.getElem?_append_right (by omega)]
  have h : l.length + i - l.length = i := by omega
  rw [h]

theorem readU32_append (l rest : List Nat) :
    readU32 (l ++ rest) l.length = readU32 rest 0 := by
  have h0 := getD_append_skip l rest 0
  have h1 := getD_append_skip l rest 1
  have h2 := getD_append_skip l rest 2
  have h3 := getD_append_skip l rest 3
  simp only [Nat.add_zero] at h0
  simp only [readU32, List.getD, List.get?_eq_getElem?] at h0 h1 h2 h3 ⊢
  rw [h0, h1, h2, h3]

theorem encodePacket_length (p : DataPacket) (hlen : p.ppg_values.length = 50) :
    (encodePacket p).length = 109 := by
  have hB : (encodeU16s p.ppg_values).length = 100 := by
    rw [encodeU16s_length, hlen]
  simp [encodePacket, encodeU32, hB]

/-- C6: encoding a frame with the documented little-endian 109-byte layout
(uint32 `sequence` at offset 0, fifty uint16 `ppg_values` from offset 4,
float32 `bpm` — transported as its 32-bit pattern — at offset 104, uint8
`mode` at offset 108) and decoding it with the monitor's unpacking logic
recovers all four fields exactly. -/
theorem packet_roundtrip (p : DataPacket) (hseq : p.sequence < 4294967296)
    (hlen : p.ppg_values.length = 50) (hv : ∀ v ∈ p.ppg_values, v < 65536)
    (hbpm : p.bpmBits < 4294967296) (_hmode : p.mode < 256) :
    decodePacket (encodePacket p) = some p := by
  have hB : (encodeU16s p.ppg_values).length = 100 := by
    rw [encodeU16s_length, hlen]
  have h109 := encodePacket_length p hlen
  have hsplit : encodePacket p =
      encodeU32 p.sequence ++ (encodeU16s p.ppg_values ++
        (encodeU32 p.bpmBits ++ [p.mode])) := by
    simp [encodePacket, List.append_assoc]
  have e1 : readU32 (encodePacket p) 0 = p.sequence := by
    rw [hsplit, readU32_encodeU32 _ _ hseq]
  have e2 : readU16s 50 ((encodePacket p).drop 4) = p.ppg_values := by
    have h4 : (4 : Nat) = (encodeU32 p.sequence).length := rfl
    rw [hsplit, h4, List.drop_left, ← hlen, readU16s_encodeU16s _ _ hv]
  have e3 : readU32 (encodePacket p) 104 = p.bpmBits := by
    have hsplit2 : encodePacket p =
        (encodeU32 p.sequence ++ encodeU16s p.ppg_values) ++
          (encodeU32 p.bpmBits ++ [p.mode]) := by
      simp [encodePacket, List.append_assoc]
    have h104 : (104 : Nat) =
        (encodeU32 p.sequence ++ encodeU16s p.ppg_values).length := by
      simp [encodeU32, hB]
    rw [hsplit2, h104, readU32_append, readU32_encodeU32 _ _ hbpm]
  have e4 : (encodePacket p).getD 108 0 = p.mode := by
    have hsplit3 : encodePacket p =
        (encodeU32 p.sequence ++ encodeU16s p.ppg_values ++ encodeU32 p.bpmBits) ++
          [p.mode] := by
      simp [encodePacket]
    have h108 : (108 : Nat) =
        (encodeU32 p.sequence ++ encodeU16s p.ppg_values ++ encodeU32 p.bpmBits).length + 0 := by
      simp [encodeU32, hB]
    rw [hsplit3, h108, getD_append_skip]
    rfl
  rw [decodePacket, if_pos h109, e1, e2, e3, e4]

/-- Witness for `packet_roundtrip`: a concrete frame round-trips. -/
theorem packet_roundtrip_witness :
    decodePacket (encodePacket ⟨70000, List.range 50, 1117388800, 1⟩) =
      some ⟨70000, List.range 50, 1117388800, 1⟩ :=
  packet_roundtrip ⟨70000, List.range 50, 1117388800, 1⟩ (by decide)
    (by simp) (by decide) (by decide) (by decide)

/-! ## `UserManager` (`src/ppg_health_monitor/ui_components/user_manager.py`)

The store is modelled as an insertion-ordered association list (a Python
`dict` keyed by username), together with a `file` component modelling the
contents of `users.json`; `save_users` rewrites the whole file from the
in-memory store. -/

/-- A session dictionary (`session_data` / an entry of a user's
`history`).  Every key a `dict` access may find absent is an `Option`;
`none` models the key being missing. `end_time` models the `"end"` key. -/
structure Session where
  start : Option String
  end_time : Option String
  duration_minutes : Option ℚ
  avg_bpm : Option ℚ
  min_bpm : Option ℚ
  max_bpm : Option ℚ
  total_samples : Option Nat
  abnormal_low : Option Nat
  abnormal_high : Option Nat
  bpm_low_threshold : Option ℚ
  bpm_high_threshold : Option ℚ
  raw_ppg : Option (List ℚ)
  deriving DecidableEq

/-- Build a session dict from the keys the claims exercise, leaving the
other keys absent. -/
def mkSession (start : Option String) (dur avg : Option ℚ)
    (ablow abhigh : Option Nat) : Session :=
  ⟨start, none, dur, avg, none, none, none, ablow, abhigh, none, none, none⟩

/-- A stored user record.  `account_type` is the field written by the
final (account-type-aware) `signup`; the legacy `save_session` under
`src/ppg_health_monitor` never touches it. -/
structure UserRecord where
  password : String
  account_type : String
  history : List Session
  total_sessions : Nat
  total_duration_minutes : ℚ
  first_session : Option String
  deriving DecidableEq

/-- The account store: the in-memory `users` dict and the `users.json`
file contents. -/
structure UserManager where
  users : List (String × UserRecord)
  file : List (String × UserRecord)
  deriving DecidableEq

/-- Python dict lookup `self.users[username]` / `username in self.users`. -/
def lookupUser : List (String × UserRecord) → String → Option UserRecord
  | [], _ => none
  | (k, v) :: rest, name => if k = name then some v else lookupUser rest name

/-- Python in-place mutation of the record stored under an existing key. -/
def updateUser (users : List (String × UserRecord)) (name : String)
    (r : UserRecord) : List (String × UserRecord) :=
  users.map fun q => if q.1 = name then (name, r) else q

/-- `save_users`: serialize the whole in-memory store to the file. -/
def UserManager.save_users (m : UserManager) : UserManager :=
  { m with file := m.users }

/-- Modelled from the spec: the final account-type-aware `UserManager`
(imported by the test suite as `gui.core.user_manager` and called with an
`account_type` argument by `AccountTab.handle_signup`) is absent from the
source tree — only its tests and callers are present.  Spec §4.2:
`signup(username, password, account_type="personal")` fails with
"Username already exists" if taken; otherwise creates `{password,
account_type, history: [], total_sessions: 0, total_duration_minutes: 0,
first_session: null}`, persists, returns success.  The `"personal"`
default of `account_type` is supplied explicitly at call sites here. -/
def UserManager.signup (m : UserManager) (username password account_type : String) :
    UserManager × Bool × String :=
  if (lookupUser m.users username).isSome then
    (m, false, "Username already exists")
  else
    (UserManager.save_users
      { m with users :=
          m.users ++ [(username, ⟨password, account_type, [], 0, 0, none⟩)] },
     true, "Account created successfully")

/-- A raised Python exception. -/
inductive PyError where
  | keyError (key : String)
  deriving DecidableEq

/-- `save_session` (`user_manager.py` lines 89–114): no-op for an unknown
username; otherwise append to `history`, bump `total_sessions`, add
`session_data.get("duration_minutes", 0)`, set `first_session` from
`session_data["start"]` if still `None` (a missing `"start"` key raises
`KeyError` at that point, after the in-memory mutations and before
`save_users`), then persist. -/
def UserManager.save_session (m : UserManager) (username : String)
    (session_data : Session) : UserManager × Option PyError :=
  match lookupUser m.users username with
  | none => (m, none)
  | some user =>
    let user1 : UserRecord :=
      { user with
        history := user.history ++ [session_data]
        total_sessions := user.total_sessions + 1
        total_duration_minutes :=
          user.total_duration_minutes + session_data.duration_minutes.getD 0 }
    if user1.first_session = none then
      match session_data.start with
      | none =>
        ({ m with users := updateUser m.users username user1 },
         some (PyError.keyError "start"))
      | some s =>
        (UserManager.save_users
          { m with users :=
              updateUser m.users username { user1 with first_session := some s } },
         none)
    else
      (UserManager.save_users
        { m with users := updateUser m.users username user1 }, none)

theorem lookupUser_append_self (users : List (String × UserRecord))
    (u : String) (r : UserRecord) (h : lookupUser users u = none) :
    lookupUser (users ++ [(u, r)]) u = some r := by
  induction users with
  | nil => simp [lookupUser]
  | cons q rest ih =>
    rcases q with ⟨k, v⟩
    by_cases hq : k = u
    · simp [lookupUser, hq] at h
    · have h' : lookupUser rest u = none := by simpa [lookupUser, hq] using h
      simpa [lookupUser, hq] using ih h'

theorem lookupUser_updateUser_self (users : List (String × UserRecord))
    (u : String) (r r' : UserRecord) (h : lookupUser users u = some r) :
    lookupUser (updateUser users u r') u = some r' := by
  induction users with
  | nil => simp [lookupUser] at h
  | cons q rest ih =>
    rcases q with ⟨k, v⟩
    by_cases hq : k = u
    · subst hq
      have hpair : (if (k, v).1 = k then (k, r') else (k, v)) = (k, r') := if_pos rfl
      simp only [updateUser, List.map_cons, hpair]
      simp [lookupUser]
    · have h' : lookupUser rest u = some r := by simpa [lookupUser, hq] using h
      have hpair : (if (k, v).1 = u then (u, r') else (k, v)) = (k, v) := if_neg hq
      simp only [updateUser, List.map_cons, hpair]
      simpa [lookupUser, hq, updateUser] using ih h'

/-- C2: for a fresh username, `signup` creates the record `{password,
account_type, history: [], total_sessions: 0, total_duration_minutes: 0,
first_session: null}` and persists it (the file equals the new store);
for a taken username it fails with "Username already exists" and leaves
store and file untouched. -/
theorem signup_spec (m : UserManager) (u p t : String) :
    (lookupUser m.users u = none →
      UserManager.signup m u p t =
        (⟨m.users ++ [(u, ⟨p, t, [], 0, 0, none⟩)],
          m.users ++ [(u, ⟨p, t, [], 0, 0, none⟩)]⟩,
         true, "Account created successfully")) ∧
    (∀ r, lookupUser m.users u = some r →
      UserManager.signup m u p t = (m, false, "Username already exists")) := by
  constructor
  · intro h
    simp [UserManager.signup, h, UserManager.save_users]
  · intro r h
    simp [UserManager.signup, h]

/-- Witness for `signup_spec`: a concrete fresh signup creates and
persists the documented record, and re-signing the same name fails and
changes nothing. -/
theorem signup_spec_witness :
    UserManager.signup ⟨[], []⟩ "alice" "pw" "personal" =
      (⟨[("alice", ⟨"pw", "personal", [], 0, 0, none⟩)],
        [("alice", ⟨"pw", "personal", [], 0, 0, none⟩)]⟩,
       true, "Account created successfully") ∧
    UserManager.signup
        ⟨[("alice", ⟨"pw", "personal", [], 0, 0, none⟩)],
         [("alice", ⟨"pw", "personal", [], 0, 0, none⟩)]⟩ "alice" "pw2" "advanced" =
      (⟨[("alice", ⟨"pw", "personal", [], 0, 0, none⟩)],
        [("alice", ⟨"pw", "personal", [], 0, 0, none⟩)]⟩,
       false, "Username already exists") := by
  constructor
  · simpa using (signup_spec ⟨[], []⟩ "alice" "pw" "personal").1 rfl
  · exact (signup_spec _ "alice" "pw2" "advanced").2 ⟨"pw", "personal", [], 0, 0, none⟩
      (by simp [lookupUser])

/-- C4: for a stored username, `save_session` appends the session to the
history, bumps `total_sessions`, adds the (defaulted) duration, sets
`first_session` only when it is still `null`, and persists; for an
unknown username it is an error-free no-op. -/
theorem save_session_spec (m : UserManager) (u : String) (data : Session) :
    (∀ r, lookupUser m.users u = some r →
      (r.first_session = none → data.start.isSome) →
      UserManager.save_session m u data =
        (⟨updateUser m.users u
            { r with
              history := r.history ++ [data]
              total_sessions := r.total_sessions + 1
              total_duration_minutes :=
                r.total_duration_minutes + data.duration_minutes.getD 0
              first_session :=
                if r.first_session = none then data.start else r.first_session },
          updateUser m.users u
            { r with
              history := r.history ++ [data]
              total_sessions := r.total_sessions + 1
              total_duration_minutes :=
                r.total_duration_minutes + data.duration_minutes.getD 0
              first_session :=
                if r.first_session = none then data.start else r.first_session }⟩,
         none)) ∧
    (lookupUser m.users u = none → UserManager.save_session m u data = (m, none)) := by
  constructor
  · intro r h hstart
    rcases hfs : r.first_session with _ | fs
    · rcases hsome : data.start with _ | s
      · exact absurd (hstart hfs) (by simp [hsome])
      · simp [UserManager.save_session, h, hfs, hsome, UserManager.save_users]
    · simp [UserManager.save_session, h, hfs, UserManager.save_users]
  · intro h
    simp [UserManager.save_session, h]

/-- Witness for `save_session_spec`: the spec's accumulation scenario —
two saves append both sessions, reach `total_sessions = 2`,
`total_duration_minutes = 25`, and keep `first_session` from the first
call only. -/
theorem save_session_spec_witness :
    UserManager.save_session
        (UserManager.save_session
          ⟨[("u1", ⟨"pw", "personal", [], 0, 0, none⟩)],
           [("u1", ⟨"pw", "personal", [], 0, 0, none⟩)]⟩
          "u1" (mkSession (some "2025-01-01T00:00:00") (some 10) none none none)).1
        "u1" (mkSession (some "2025-01-02T00:00:00") (some 15) none none none) =
      (⟨[("u1", ⟨"pw", "personal",
            [mkSession (some "2025-01-01T00:00:00") (some 10) none none none,
             mkSession (some "2025-01-02T00:00:00") (some 15) none none none],
            2, 25, some "2025-01-01T00:00:00"⟩)],
         [("u1", ⟨"pw", "personal",
            [mkSession (some "2025-01-01T00:00:00") (some 10) none none none,
             mkSession (some "2025-01-02T00:00:00") (some 15) none none none],
            2, 25, some "2025-01-01T00:00:00"⟩)]⟩, none) := by
  have h1 := (save_session_spec
      ⟨[("u1", ⟨"pw", "personal", [], 0, 0, none⟩)],
       [("u1", ⟨"pw", "personal", [], 0, 0, none⟩)]⟩
      "u1" (mkSession (some "2025-01-01T00:00:00") (some 10) none none none)).1
    ⟨"pw", "personal", [], 0, 0, none⟩ (by decide) (by decide)
  have e1 : (UserManager.save_session
      ⟨[("u1", ⟨"pw", "personal", [], 0, 0, none⟩)],
       [("u1", ⟨"pw", "personal", [], 0, 0, none⟩)]⟩
      "u1" (mkSession (some "2025-01-01T00:00:00") (some 10) none none none)).1 =
      ⟨[("u1", ⟨"pw", "personal",
          [mkSession (some "2025-01-01T00:00:00") (some 10) none none none],
          1, 10, some "2025-01-01T00:00:00"⟩)],
       [("u1", ⟨"pw", "personal",
          [mkSession (some "2025-01-01T00:00:00") (some 10) none none none],
          1, 10, some "2025-01-01T00:00:00"⟩)]⟩ := by
    rw [h1]
    simp [updateUser, mkSession]
  rw [e1]
  have h2 := (save_session_spec
      ⟨[("u1", ⟨"pw", "personal",
          [mkSession (some "2025-01-01T00:00:00") (some 10) none none none],
          1, 10, some "2025-01-01T00:00:00"⟩)],
       [("u1", ⟨"pw", "personal",
          [mkSession (some "2025-01-01T00:00:00") (some 10) none none none],
          1, 10, some "2025-01-01T00:00:00"⟩)]⟩
      "u1" (mkSession (some "2025-01-02T00:00:00") (some 15) none none none)).1
    ⟨"pw", "personal",
      [mkSession (some "2025-01-01T00:00:00") (some 10) none none none],
      1, 10, some "2025-01-01T00:00:00"⟩ (by decide) (by decide)
  rw [h2]
  simp [updateUser, mkSession]
  norm_num

/-- C10: for a stored username whose `first_session` is still `null`, a
`session_data` without a `"start"` key makes `save_session` raise
`KeyError` after the in-memory history/counters were mutated but before
`save_users` ran — the store is mutated while the file is unchanged. -/
theorem save_session_keyerror (m : UserManager) (u : String) (data : Session)
    (r : UserRecord) (hr : lookupUser m.users u = some r)
    (hfs : r.first_session = none) (hstart : data.start = none) :
    (UserManager.save_session m u data).2 = some (PyError.keyError "start") ∧
    (UserManager.save_session m u data).1.file = m.file ∧
    (UserManager.save_session m u data).1.users =
      updateUser m.users u
        { r with
          history := r.history ++ [data]
          total_sessions := r.total_sessions + 1
          total_duration_minutes :=
            r.total_duration_minutes + data.duration_minutes.getD 0 } := by
  refine ⟨?_, ?_, ?_⟩ <;>
    simp [UserManager.save_session, hr, hfs, hstart]

/-- Witness for `save_session_keyerror`: a concrete startless session
raises `KeyError "start"`, mutates the in-memory record, and leaves the
file holding the old record. -/
theorem save_session_keyerror_witness :
    (UserManager.save_session
        ⟨[("u1", ⟨"pw", "personal", [], 0, 0, none⟩)],
         [("u1", ⟨"pw", "personal", [], 0, 0, none⟩)]⟩
        "u1" (mkSession none (some 5) none none none)).2 =
      some (PyError.keyError "start") ∧
    (UserManager.save_session
        ⟨[("u1", ⟨"pw", "personal", [], 0, 0, none⟩)],
         [("u1", ⟨"pw", "personal", [], 0, 0, none⟩)]⟩
        "u1" (mkSession none (some 5) none none none)).1.file =
      [("u1", ⟨"pw", "personal", [], 0, 0, none⟩)] ∧
    (UserManager.save_session
        ⟨[("u1", ⟨"pw", "personal", [], 0, 0, none⟩)],
         [("u1", ⟨"pw", "personal", [], 0, 0, none⟩)]⟩
        "u1" (mkSession none (some 5) none none none)).1.users =
      [("u1", ⟨"pw", "personal", [mkSession none (some 5) none none none], 1, 5, none⟩)] := by
  have h := save_session_keyerror
    ⟨[("u1", ⟨"pw", "personal", [], 0, 0, none⟩)],
     [("u1", ⟨"pw", "personal", [], 0, 0, none⟩)]⟩
    "u1" (mkSession none (some 5) none none none)
    ⟨"pw", "personal", [], 0, 0, none⟩ (by simp [lookupUser]) rfl rfl
  refine ⟨h.1, h.2.1, ?_⟩
  rw [h.2.2]
  simp [updateUser, mkSession]

/-! ## `SignalProcessingUtils.calculate_hrv_time_domain`
(`src/gui/utils/signal_processing_utils.py` lines 74–119)

Machine floats are modelled by exact rationals; the square roots taken by
`np.std` / `np.sqrt` are modelled by `Real.sqrt` over `ℝ`. -/

/-- `np.mean` over a list of rationals (callers guarantee nonempty input;
`0/0 = 0` would model NumPy's NaN case, which no claim reaches). -/
def npMean (l : List ℚ) : ℚ :=
  l.sum / l.length

/-- Population variance, so that `np.std l = Real.sqrt (npVariance l)`. -/
def npVariance (l : List ℚ) : ℚ :=
  npMean (l.map fun x => (x - npMean l) ^ 2)

/-- `np.diff`: successive differences. -/
def npDiff : List ℚ → List ℚ
  | [] => []
  | [_] => []
  | a :: b :: t => (b - a) :: npDiff (b :: t)

/-- The plausibility filter `(rr_intervals > 300) & (rr_intervals < 2000)`. -/
def validRR (rr_intervals : List ℚ) : List ℚ :=
  rr_intervals.filter fun x => decide (300 < x ∧ x < 2000)

/-- The HRV time-domain metrics dict.  `mean_rr`, `heart_rate` and
`pnn50` involve only rational arithmetic; `sdnn`, `rmssd` and the
Poincaré metrics are square roots, modelled over `ℝ`. -/
structure HRVMetrics where
  mean_rr : ℚ
  sdnn : ℝ
  rmssd : ℝ
  heart_rate : ℚ
  pnn50 : ℚ
  sd1 : ℝ
  sd2 : ℝ
  sd_ratio : ℝ

/-- `calculate_hrv_time_domain`: `{}` (here `none`) below 2 raw intervals
or below 2 intervals surviving the `(300, 2000)` ms filter; otherwise
`mean_rr`, `sdnn = np.std(valid)`, `rmssd = sqrt(mean(diff²))`,
`heart_rate = 60000/mean_rr`, `pnn50` (percentage of successive
differences exceeding 50 ms, `0` when no differences exist),
`sd1 = sqrt(0.5·rmssd²)`, `sd2 = sqrt(max(2·sdnn² − 0.5·rmssd², 0))`,
`sd_ratio = sd1/sd2 if sd2 > 0 else 0`. -/
noncomputable def calculate_hrv_time_domain (rr_intervals : List ℚ) :
    Option HRVMetrics :=
  if rr_intervals.length < 2 then none
  else
    let valid_rr := validRR rr_intervals
    if valid_rr.length < 2 then none
    else
      let mean_rr := npMean valid_rr
      let sdnn : ℝ := Real.sqrt (npVariance valid_rr : ℚ)
      let rmssd : ℝ := Real.sqrt (npMean ((npDiff valid_rr).map fun d => d ^ 2) : ℚ)
      let heart_rate := 60000 / mean_rr
      let diff_rr := (npDiff valid_rr).map fun d => |d|
      let pnn50 : ℚ :=
        if diff_rr.length > 0 then
          ((diff_rr.filter fun d => decide (50 < d)).length : ℚ) / diff_rr.length * 100
        else 0
      let sd1 : ℝ := Real.sqrt (2⁻¹ * rmssd ^ 2)
      let sd2 : ℝ := Real.sqrt (max (2 * sdnn ^ 2 - 2⁻¹ * rmssd ^ 2) 0)
      let sd_ratio : ℝ := if sd2 > 0 then sd1 / sd2 else 0
      some ⟨mean_rr, sdnn, rmssd, heart_rate, pnn50, sd1, sd2, sd_ratio⟩

theorem pos_div_ite (a b : ℝ) (ha : 0 ≤ a) :
    (if a > 0 then b / a else 0) = if a = 0 then 0 else b / a := by
  rcases eq_or_lt_of_le ha with h | h
  · rw [← h]
    simp
  · rw [if_pos h, if_neg (ne_of_gt h)]

/-- C5: the two empty-result guards, and — for every surviving input —
the heart-rate and Poincaré relations of the returned metrics:
`heart_rate = 60000/mean_rr`, `sd1 = sqrt(0.5·rmssd²)`,
`sd2 = sqrt(max(2·sdnn² − 0.5·rmssd², 0))` (hence non-negative), and
`sd_ratio = sd1/sd2` with `0` exactly when `sd2 = 0`. -/
theorem hrv_time_domain_spec (rr_intervals : List ℚ) :
    (rr_intervals.length < 2 → calculate_hrv_time_domain rr_intervals = none) ∧
    ((validRR rr_intervals).length < 2 →
      calculate_hrv_time_domain rr_intervals = none) ∧
    (∀ m, calculate_hrv_time_domain rr_intervals = some m →
      m.heart_rate = 60000 / m.mean_rr ∧
      m.sd1 = Real.sqrt (2⁻¹ * m.rmssd ^ 2) ∧
      m.sd2 = Real.sqrt (max (2 * m.sdnn ^ 2 - 2⁻¹ * m.rmssd ^ 2) 0) ∧
      0 ≤ m.sd2 ∧
      m.sd_ratio = if m.sd2 = 0 then 0 else m.sd1 / m.sd2) := by
  refine ⟨fun h => by simp [calculate_hrv_time_domain, h], fun h => ?_, fun m hm => ?_⟩
  · by_cases h2 : rr_intervals.length < 2
    · simp [calculate_hrv_time_domain, h2]
    · simp [calculate_hrv_time_domain, h2, h]
  · by_cases h2 : rr_intervals.length < 2
    · simp [calculate_hrv_time_domain, h2] at hm
    · by_cases hv : (validRR rr_intervals).length < 2
      · simp [calculate_hrv_time_domain, h2, hv] at hm
      · simp only [calculate_hrv_time_domain, h2, if_false, hv] at hm
        injection hm with hm
        subst hm
        exact ⟨rfl, rfl, rfl, Real.sqrt_nonneg _, pos_div_ite _ _ (Real.sqrt_nonneg _)⟩

theorem hrv_eval_1000 :
    calculate_hrv_time_domain [1000, 1000, 1000] = some ⟨1000, 0, 0, 60, 0, 0, 0, 0⟩ := by
  have hval : validRR [1000, 1000, 1000] = [1000, 1000, 1000] := by decide
  have hmean : npMean [1000, 1000, 1000] = 1000 := by norm_num [npMean]
  have hvar : npVariance [1000, 1000, 1000] = 0 := by
    norm_num [npVariance, npMean]
  have hdiff : npDiff [1000, 1000, 1000] = [0, 0] := by norm_num [npDiff]
  simp only [calculate_hrv_time_domain, hval, hmean, hvar, hdiff]
  norm_num [npMean, Real.sqrt_zero]

/-- Witness for `hrv_time_domain_spec`: a single raw interval and the
all-filtered input `[100, 150]` return the empty result, and
`[1000, 1000, 1000]` yields `heart_rate` exactly `60.0` (hence within
`0.1` of `60.0`). -/
theorem hrv_time_domain_spec_witness :
    calculate_hrv_time_domain [500] = none ∧
    calculate_hrv_time_domain [100, 150] = none ∧
    calculate_hrv_time_domain [1000, 1000, 1000] = some ⟨1000, 0, 0, 60, 0, 0, 0, 0⟩ ∧
    |(60 : ℚ) - 60| ≤ 1 / 10 :=
  ⟨(hrv_time_domain_spec [500]).1 (by decide),
   (hrv_time_domain_spec [100, 150]).2.1 (by decide),
   hrv_eval_1000, by norm_num⟩

/-! ## `LiveMonitorTab` (`src/gui/ui_tabs/live_monitor_tab.py`)

The state carries the fields that `new_data_received` and
`check_bpm_alarm` read or write.  `process_ppg_signal`,
`update_physiological_metrics` and `update_plots` mutate only the
peak/IBI/RR/HRV display state (none of which is read by the claims) and
never any field embedded here, so the embedding leaves them out.  Qt
widget text and visibility are carried as plain fields. -/

/-- The packet dict emitted by `BluetoothMonitor.packet_received`
(decoded values; `bpm` is the float, modelled as `ℚ`). -/
structure LivePacket where
  sequence : Nat
  ppg_values : List ℚ
  bpm : ℚ
  mode : Nat
  deriving DecidableEq

/-- Python `f"{x:.1f}"`, with rounding modelled by `round` (the
half-to-even behaviour of binary floats differs only on exact ties,
which no claim exercises). -/
def fmt1 (q : ℚ) : String :=
  let n : ℤ := round (q * 10)
  (if n < 0 then "-" else "") ++ toString (n.natAbs / 10) ++ "." ++ toString (n.natAbs % 10)

/-- `np.linspace(a, b, n, endpoint=False)`. -/
def linspace (a b : ℚ) (n : Nat) : List ℚ :=
  (List.range n).map fun k => a + (b - a) * k / n

/-- `collections.deque(maxlen := m)`: extend then evict the oldest. -/
def dequeExtend (maxlen : Nat) (buf new : List ℚ) : List ℚ :=
  let l := buf ++ new
  l.drop (l.length - maxlen)

/-- The `LiveMonitorTab` fields read/written by `new_data_received` and
`check_bpm_alarm`. -/
structure LiveState where
  current_user : Option String
  session_raw_ppg : List ℚ
  session_bpm : List ℚ
  visual_ppg_data : List ℚ
  visual_bpm_data : List ℚ
  time_ppg_data : List ℚ
  time_bpm_data : List ℚ
  ppg_buffer : List ℚ
  ppg_times : List ℚ
  last_packet_time : ℚ
  current_bpm : ℚ
  bpm_display : String
  bpm_low : ℚ
  bpm_high : ℚ
  alarm_active : Bool
  alarm_visible : Bool
  alarm_text : String
  alarm_widget_visible : Bool
  alarm_timer_running : Bool
  deriving DecidableEq

/-- The `__init__` values of the embedded fields (`visual_bpm_data` and
`time_bpm_data` are seeded with one `0`; thresholds default to 40/200;
the alarm widget starts hidden with its blink timer stopped). -/
def initLiveState : LiveState :=
  ⟨none, [], [], [], [0], [], [0], [], [], 0, 0, "", 40, 200, false, true, "", false, false⟩

/-- `check_bpm_alarm` (lines 723–749): below `bpm_low` → alarm active,
"PULSE LOW" banner text, blink timer started only on a fresh transition,
message "Pulse Low"; above `bpm_high` → symmetric "PULSE HIGH"/"Pulse
High"; otherwise the alarm is cleared (widget hidden and timer stopped
only if it was active) and the message is "Pulse Normal". -/
def check_bpm_alarm (s : LiveState) : LiveState × Option String :=
  let prev_state := s.alarm_active
  if s.current_bpm < s.bpm_low then
    ({ s with
        alarm_active := true
        alarm_text := "WARNING: PULSE LOW: " ++ fmt1 s.current_bpm ++ " BPM"
        alarm_timer_running := if prev_state then s.alarm_timer_running else true },
     some "Pulse Low")
  else if s.current_bpm > s.bpm_high then
    ({ s with
        alarm_active := true
        alarm_text := "WARNING: PULSE HIGH: " ++ fmt1 s.current_bpm ++ " BPM"
        alarm_timer_running := if prev_state then s.alarm_timer_running else true },
     some "Pulse High")
  else
    (if prev_state then
      { s with
          alarm_active := false
          alarm_widget_visible := false
          alarm_timer_running := false }
     else { s with alarm_active := false },
     some "Pulse Normal")

/-- `new_data_received` (lines 322–370): update `current_bpm`, advance
the per-packet clock; when `bpm > 0` update the BPM display, run the
alarm check and — only with an active user session — append the BPM and
this packet's raw samples to the session history; when `bpm <= 0` show
the placeholder and append nothing to the session.  Then extend the
visual series and the bounded processing buffers, and return the alarm
message. -/
def new_data_received (p : LivePacket) (s0 : LiveState) : LiveState × Option String :=
  let bpm := p.bpm
  let s1 := { s0 with current_bpm := bpm }
  let current_time := s1.last_packet_time
  let s2 := { s1 with last_packet_time := s1.last_packet_time + 1 }
  let step :=
    if bpm > 0 then
      let s3 := { s2 with bpm_display := fmt1 bpm ++ " BPM" }
      let am := check_bpm_alarm s3
      let s4 :=
        if am.1.current_user.isSome then
          { am.1 with
              session_bpm := am.1.session_bpm ++ [bpm]
              session_raw_ppg := am.1.session_raw_ppg ++ p.ppg_values }
        else am.1
      (s4, am.2)
    else ({ s2 with bpm_display := "-- BPM" }, (none : Option String))
  let s5 := step.1
  let s6 := { s5 with
      visual_bpm_data := s5.visual_bpm_data ++ [bpm]
      time_bpm_data := s5.time_bpm_data ++ [s5.last_packet_time] }
  let ppg_times := linspace current_time s6.last_packet_time p.ppg_values.length
  let s7 := { s6 with
      visual_ppg_data := s6.visual_ppg_data ++ p.ppg_values
      time_ppg_data := s6.time_ppg_data ++ ppg_times
      ppg_buffer := dequeExtend 3000 s6.ppg_buffer p.ppg_values
      ppg_times := dequeExtend 3000 s6.ppg_times ppg_times }
  (s7, step.2)

/-- Fold `new_data_received` over a packet stream. -/
def runPackets (ps : List LivePacket) (s : LiveState) : LiveState :=
  ps.foldl (fun st p => (new_data_received p st).1) s

/-! ## `MainWindow` (`src/gui/main_window.py`) -/

/-- A `datetime` value: its `isoformat()` string and its absolute time in
seconds (`datetime.now()` reads are passed in explicitly). -/
structure PyDateTime where
  iso : String
  seconds : ℚ
  deriving DecidableEq

/-- The `MainWindow` fields the claims touch.  `log` is the sequence of
messages handed to `SystemLog.add_log_entry` (the widget's wall-clock
timestamp prefix is presentation only). -/
structure MainState where
  user_manager : UserManager
  current_user : Option String
  session_start_time : Option PyDateTime
  expected_sequence : Nat
  live : LiveState
  log : List String
  status_bar : String
  deriving DecidableEq

/-- `handle_new_packet` (lines 245–261), translated line by line: it
first OVERWRITES `expected_sequence` with the packet's sequence, then
compares the two (now always equal), then increments; forwards the
packet to the live tab and logs any returned alarm message; updates the
status bar when a user is logged in. -/
def handle_new_packet (packet : LivePacket) (now : PyDateTime) (m : MainState) :
    MainState :=
  let sequence := packet.sequence
  let m1 := { m with expected_sequence := sequence }
  let m2 :=
    if m1.expected_sequence ≠ sequence then
      { m1 with log := m1.log ++
          ["Packet sequence mismatch: expected " ++ toString m1.expected_sequence ++
            ", got " ++ toString sequence] }
    else m1
  let m3 := { m2 with expected_sequence := m2.expected_sequence + 1 }
  let lp := new_data_received packet m3.live
  let m4 := { m3 with live := lp.1 }
  let m5 :=
    match lp.2 with
    | some alarm_message => { m4 with log := m4.log ++ [alarm_message] }
    | none => m4
  match m5.current_user with
  | some u =>
    { m5 with status_bar :=
        "Recording for " ++ u ++ " | Current BPM: " ++ fmt1 packet.bpm ++
          " | Duration: " ++
          fmt1 ((now.seconds - ((m5.session_start_time.map PyDateTime.seconds).getD 0)) / 60) ++
          "min | Samples: " ++ toString (m5.live.session_bpm.length * 50) }
  | none => m5

/-- `np.min` over a nonempty list (callers of `save_current_session`
guarantee `session_bpm` is nonempty; the `0` default is unreachable). -/
def qmin : List ℚ → ℚ
  | [] => 0
  | x :: xs => xs.foldl min x

/-- `np.max` over a nonempty list. -/
def qmax : List ℚ → ℚ
  | [] => 0
  | x :: xs => xs.foldl max x

/-- The `session_data` dict assembled by `save_current_session`
(lines 272–300): timestamps, duration, BPM statistics, abnormal counts
against the live tab's current thresholds, threshold snapshot, and the
session's raw PPG list. -/
def assemble_session_data (live : LiveState) (start now : PyDateTime) : Session :=
  ⟨some start.iso, some now.iso,
   some ((now.seconds - start.seconds) / 60),
   some (npMean live.session_bpm),
   some (qmin live.session_bpm),
   some (qmax live.session_bpm),
   some live.session_bpm.length,
   some (live.session_bpm.filter fun x => decide (x < live.bpm_low)).length,
   some (live.session_bpm.filter fun x => decide (x > live.bpm_high)).length,
   some live.bpm_low, some live.bpm_high,
   some live.session_raw_ppg⟩

/-- `save_current_session`: assemble the record and hand it to
`UserManager.save_session` (the History-tab refresh touches only
widgets).  Callers guarantee a logged-in user and a set start time. -/
def save_current_session (m : MainState) (now : PyDateTime) : MainState :=
  match m.session_start_time with
  | none => m
  | some start =>
    let data := assemble_session_data m.live start now
    { m with
        user_manager := (m.user_manager.save_session (m.current_user.getD "") data).1
        log := m.log ++
          ["Session saved: " ++ fmt1 ((now.seconds - start.seconds) / 60) ++ " min, " ++
            toString m.live.session_bpm.length ++ " samples, avg BPM: " ++
            fmt1 (npMean m.live.session_bpm) ++ ", Thresholds: " ++
            toString m.live.bpm_low ++ "-" ++ toString m.live.bpm_high] }

theorem check_bpm_alarm_preserves (s : LiveState) :
    (check_bpm_alarm s).1.session_bpm = s.session_bpm ∧
    (check_bpm_alarm s).1.session_raw_ppg = s.session_raw_ppg ∧
    (check_bpm_alarm s).1.current_user = s.current_user := by
  unfold check_bpm_alarm
  by_cases h1 : s.current_bpm < s.bpm_low <;>
    by_cases h2 : s.current_bpm > s.bpm_high <;>
      by_cases h3 : s.alarm_active <;> simp [h1, h2, h3]

/-- C8: `check_bpm_alarm` below `bpm_low` activates the alarm, writes a
banner containing "PULSE LOW", starts the blink timer only on a fresh
transition, and returns "Pulse Low"; above `bpm_high` (when the low
branch did not fire) symmetrically with "PULSE HIGH"/"Pulse High"; back
in range from an active alarm it clears `alarm_active`, hides the alarm
widget and stops the blink timer. -/
theorem check_bpm_alarm_spec (s : LiveState) :
    (s.current_bpm < s.bpm_low →
      (check_bpm_alarm s).1.alarm_active = true ∧
      (∃ u v, (check_bpm_alarm s).1.alarm_text = u ++ "PULSE LOW" ++ v) ∧
      (s.alarm_active = false → (check_bpm_alarm s).1.alarm_timer_running = true) ∧
      (s.alarm_active = true →
        (check_bpm_alarm s).1.alarm_timer_running = s.alarm_timer_running) ∧
      (check_bpm_alarm s).2 = some "Pulse Low") ∧
    (¬s.current_bpm < s.bpm_low → s.current_bpm > s.bpm_high →
      (check_bpm_alarm s).1.alarm_active = true ∧
      (∃ u v, (check_bpm_alarm s).1.alarm_text = u ++ "PULSE HIGH" ++ v) ∧
      (s.alarm_active = false → (check_bpm_alarm s).1.alarm_timer_running = true) ∧
      (s.alarm_active = true →
        (check_bpm_alarm s).1.alarm_timer_running = s.alarm_timer_running) ∧
      (check_bpm_alarm s).2 = some "Pulse High") ∧
    (s.bpm_low ≤ s.current_bpm → s.current_bpm ≤ s.bpm_high → s.alarm_active = true →
      (check_bpm_alarm s).1.alarm_active = false ∧
      (check_bpm_alarm s).1.alarm_widget_visible = false ∧
      (check_bpm_alarm s).1.alarm_timer_running = false) := by
  refine ⟨fun h1 => ?_, fun h1 h2 => ?_, fun h1 h2 h3 => ?_⟩
  · by_cases h3 : s.alarm_active <;>
      simp [check_bpm_alarm, h1, h3] <;>
      exact ⟨"WARNING: ", ": " ++ fmt1 s.current_bpm ++ " BPM", rfl⟩
  · by_cases h3 : s.alarm_active <;>
      simp [check_bpm_alarm, h1, h2, h3] <;>
      exact ⟨"WARNING: ", ": " ++ fmt1 s.current_bpm ++ " BPM", rfl⟩
  · have h1' : ¬s.current_bpm < s.bpm_low := not_lt.mpr h1
    have h2' : ¬s.current_bpm > s.bpm_high := not_lt.mpr h2
    simp [check_bpm_alarm, h1', h2', h3]

/-- Witness for `check_bpm_alarm_spec`: with `bpm_low = 60` and
`current_bpm = 50` the alarm activates with a "PULSE LOW" banner and the
blink timer starts; with `bpm_high = 100` and `current_bpm = 110` the
symmetric high case; back in range from an active alarm everything is
cleared. -/
theorem check_bpm_alarm_spec_witness :
    ((check_bpm_alarm
        { initLiveState with current_bpm := 50, bpm_low := 60, bpm_high := 100 }).1.alarm_active
      = true ∧
      (∃ u v, (check_bpm_alarm
        { initLiveState with current_bpm := 50, bpm_low := 60, bpm_high := 100 }).1.alarm_text
          = u ++ "PULSE LOW" ++ v) ∧
      (check_bpm_alarm
        { initLiveState with current_bpm := 50, bpm_low := 60, bpm_high := 100 }).2
        = some "Pulse Low") ∧
    ((check_bpm_alarm
        { initLiveState with current_bpm := 110, bpm_low := 60, bpm_high := 100 }).2
      = some "Pulse High") ∧
    ((check_bpm_alarm
        { initLiveState with
            current_bpm := 80, bpm_low := 60, bpm_high := 100
            alarm_active := true, alarm_widget_visible := true
            alarm_timer_running := true }).1.alarm_active = false ∧
      (check_bpm_alarm
        { initLiveState with
            current_bpm := 80, bpm_low := 60, bpm_high := 100
            alarm_active := true, alarm_widget_visible := true
            alarm_timer_running := true }).1.alarm_widget_visible = false ∧
      (check_bpm_alarm
        { initLiveState with
            current_bpm := 80, bpm_low := 60, bpm_high := 100
            alarm_active := true, alarm_widget_visible := true
            alarm_timer_running := true }).1.alarm_timer_running = false) := by
  have hlow := (check_bpm_alarm_spec
    { initLiveState with current_bpm := 50, bpm_low := 60, bpm_high := 100 }).1
    (by norm_num)
  have hhigh := (check_bpm_alarm_spec
    { initLiveState with current_bpm := 110, bpm_low := 60, bpm_high := 100 }).2.1
    (by norm_num) (by norm_num)
  have hclear := (check_bpm_alarm_spec
    { initLiveState with
        current_bpm := 80, bpm_low := 60, bpm_high := 100
        alarm_active := true, alarm_widget_visible := true
        alarm_timer_running := true }).2.2
    (by norm_num) (by norm_num) rfl
  exact ⟨⟨hlow.1, hlow.2.1, hlow.2.2.2.2⟩, hhigh.2.2.2.2, hclear⟩

/-- C9: an in-range reading makes `check_bpm_alarm` (via
`new_data_received`) return the non-null message "Pulse Normal" whether
or not an alarm was previously active, and `handle_new_packet` logs any
non-null returned message — so every in-range packet appends exactly one
"Pulse Normal" entry to the system log. -/
theorem new_data_msg_normal (p : LivePacket) (s : LiveState) (hb : p.bpm > 0)
    (hlow : s.bpm_low ≤ p.bpm) (hhigh : p.bpm ≤ s.bpm_high) :
    (new_data_received p s).2 = some "Pulse Normal" := by
  have h1 : ¬(p.bpm < s.bpm_low) := not_lt.mpr hlow
  have h2 : ¬(p.bpm > s.bpm_high) := not_lt.mpr hhigh
  by_cases h3 : s.alarm_active <;>
    simp [new_data_received, check_bpm_alarm, hb, h1, h2, h3]

theorem pulse_normal_logged_every_packet (m : MainState) (p : LivePacket)
    (now : PyDateTime) (hb : p.bpm > 0) (hlow : m.live.bpm_low ≤ p.bpm)
    (hhigh : p.bpm ≤ m.live.bpm_high) :
    (new_data_received p m.live).2 = some "Pulse Normal" ∧
    (handle_new_packet p now m).log = m.log ++ ["Pulse Normal"] := by
  have hmsg := new_data_msg_normal p m.live hb hlow hhigh
  refine ⟨hmsg, ?_⟩
  unfold handle_new_packet
  rcases hu : m.current_user with _ | u <;>
    simp [hu, hmsg]

/-- Witness for `pulse_normal_logged_every_packet`: a concrete in-range
packet with no active alarm appends "Pulse Normal" to the log. -/
theorem pulse_normal_logged_every_packet_witness :
    (new_data_received ⟨3, List.replicate 50 512, 75, 0⟩
        (⟨⟨[], []⟩, none, none, 3, initLiveState, ["Application started"], ""⟩ :
          MainState).live).2 = some "Pulse Normal" ∧
    (handle_new_packet ⟨3, List.replicate 50 512, 75, 0⟩ ⟨"", 0⟩
        ⟨⟨[], []⟩, none, none, 3, initLiveState, ["Application started"], ""⟩).log =
      ["Application started"] ++ ["Pulse Normal"] :=
  pulse_normal_logged_every_packet
    ⟨⟨[], []⟩, none, none, 3, initLiveState, ["Application started"], ""⟩
    ⟨3, List.replicate 50 512, 75, 0⟩ ⟨"", 0⟩
    (by norm_num) (by norm_num [initLiveState]) (by norm_num [initLiveState])

theorem new_data_session_append (p : LivePacket) (s : LiveState)
    (hb : p.bpm > 0) (hu : s.current_user.isSome) :
    (new_data_received p s).1.session_bpm = s.session_bpm ++ [p.bpm] ∧
    (new_data_received p s).1.session_raw_ppg = s.session_raw_ppg ++ p.ppg_values := by
  have hpre := check_bpm_alarm_preserves { s with
    current_bpm := p.bpm
    last_packet_time := s.last_packet_time + 1
    bpm_display := fmt1 p.bpm ++ " BPM" }
  have hu' : (check_bpm_alarm { s with
      current_bpm := p.bpm
      last_packet_time := s.last_packet_time + 1
      bpm_display := fmt1 p.bpm ++ " BPM" }).1.current_user.isSome := by
    rw [hpre.2.2]; exact hu
  simp only [new_data_received, hb, if_pos, hu', if_true]
  simp [hpre.1, hpre.2.1]

theorem new_data_session_unchanged (p : LivePacket) (s : LiveState)
    (h : ¬(p.bpm > 0 ∧ s.current_user.isSome)) :
    (new_data_received p s).1.session_bpm = s.session_bpm ∧
    (new_data_received p s).1.session_raw_ppg = s.session_raw_ppg := by
  have hpre := check_bpm_alarm_preserves { s with
    current_bpm := p.bpm
    last_packet_time := s.last_packet_time + 1
    bpm_display := fmt1 p.bpm ++ " BPM" }
  by_cases hb : p.bpm > 0
  · have hu : ¬(s.current_user.isSome) := fun hu => h ⟨hb, hu⟩
    have hu' : ¬(check_bpm_alarm { s with
        current_bpm := p.bpm
        last_packet_time := s.last_packet_time + 1
        bpm_display := fmt1 p.bpm ++ " BPM" }).1.current_user.isSome := by
      rw [hpre.2.2]; exact hu
    simp only [new_data_received, hb, if_pos, hu', if_false]
    simp [hpre.1, hpre.2.1, hu']
  · simp [new_data_received, hb]

theorem run_packets_ratio (ps : List LivePacket) (s : LiveState)
    (hp : ∀ p ∈ ps, p.ppg_values.length = 50)
    (h : s.session_raw_ppg.length = s.session_bpm.length * 50) :
    (runPackets ps s).session_raw_ppg.length =
      (runPackets ps s).session_bpm.length * 50 := by
  induction ps generalizing s with
  | nil => simpa [runPackets]
  | cons p rest ih =>
    have hp50 : p.ppg_values.length = 50 := hp p (by simp)
    have hstep : (new_data_received p s).1.session_raw_ppg.length =
        (new_data_received p s).1.session_bpm.length * 50 := by
      by_cases hc : p.bpm > 0 ∧ s.current_user.isSome
      · obtain ⟨e1, e2⟩ := new_data_session_append p s hc.1 hc.2
        rw [e1, e2]
        simp [hp50, h]
        ring
      · obtain ⟨e1, e2⟩ := new_data_session_unchanged p s hc
        rw [e1, e2, h]
    have hrest : ∀ q ∈ rest, q.ppg_values.length = 50 := fun q hq => hp q (by simp [hq])
    simpa [runPackets] using ih (new_data_received p s).1 hrest hstep

/-- C3: `new_data_received` appends one BPM sample and the packet's raw
samples only together (when `bpm > 0` and a user session is active) and
appends neither otherwise; hence, when every packet carries exactly 50
raw samples, the session record assembled by `save_current_session`
satisfies `len(raw_ppg) = total_samples * 50`. -/
theorem session_record_ratio_invariant :
    (∀ (p : LivePacket) (s : LiveState), p.bpm > 0 → s.current_user.isSome →
      (new_data_received p s).1.session_bpm = s.session_bpm ++ [p.bpm] ∧
      (new_data_received p s).1.session_raw_ppg = s.session_raw_ppg ++ p.ppg_values) ∧
    (∀ (p : LivePacket) (s : LiveState), ¬(p.bpm > 0 ∧ s.current_user.isSome) →
      (new_data_received p s).1.session_bpm = s.session_bpm ∧
      (new_data_received p s).1.session_raw_ppg = s.session_raw_ppg) ∧
    (∀ (ps : List LivePacket) (s : LiveState) (start now : PyDateTime),
      (∀ p ∈ ps, p.ppg_values.length = 50) →
      s.session_raw_ppg.length = s.session_bpm.length * 50 →
      ((assemble_session_data (runPackets ps s) start now).raw_ppg.getD []).length =
        ((assemble_session_data (runPackets ps s) start now).total_samples.getD 0) * 50) := by
  refine ⟨new_data_session_append, new_data_session_unchanged,
    fun ps s start now hp h => ?_⟩
  simpa [assemble_session_data] using run_packets_ratio ps s hp h

/-- Witness for `session_record_ratio_invariant`: a two-packet stream
(one valid-BPM packet, one `bpm = 0` packet) into an active session
yields a record with `len(raw_ppg) = total_samples * 50`. -/
theorem session_record_ratio_invariant_witness :
    ((assemble_session_data
        (runPackets
          [⟨0, List.replicate 50 512, 75, 0⟩, ⟨1, List.replicate 50 512, 0, 0⟩]
          { initLiveState with current_user := some "u1" })
        ⟨"2025-01-01T00:00:00", 0⟩ ⟨"2025-01-01T00:01:00", 60⟩).raw_ppg.getD []).length =
      ((assemble_session_data
        (runPackets
          [⟨0, List.replicate 50 512, 75, 0⟩, ⟨1, List.replicate 50 512, 0, 0⟩]
          { initLiveState with current_user := some "u1" })
        ⟨"2025-01-01T00:00:00", 0⟩ ⟨"2025-01-01T00:01:00", 60⟩).total_samples.getD 0) * 50 :=
  session_record_ratio_invariant.2.2
    [⟨0, List.replicate 50 512, 75, 0⟩, ⟨1, List.replicate 50 512, 0, 0⟩]
    { initLiveState with current_user := some "u1" }
    ⟨"2025-01-01T00:00:00", 0⟩ ⟨"2025-01-01T00:01:00", 60⟩
    (by
      intro p hp
      simp only [List.mem_cons, List.not_mem_nil, or_false] at hp
      rcases hp with rfl | rfl <;> simp)
    (by simp [initLiveState])

/-- C1 (divergence evidence): `handle_new_packet` assigns
`expected_sequence = sequence` BEFORE the mismatch comparison (source
lines 247–248), so the comparison is always between equal values and the
mismatch entry is never logged.  At the spec's own failing input —
expected 11, received 15 — the log gains only the alarm message "Pulse
Normal" (no mismatch entry), while `expected_sequence` still advances to
`received + 1 = 16`. -/
theorem handle_new_packet_never_logs_mismatch :
    (∀ (m : MainState) (p : LivePacket) (now : PyDateTime),
      (handle_new_packet p now m).log = m.log ++
        (match (new_data_received p m.live).2 with
          | some msg => [msg]
          | none => []) ∧
      (handle_new_packet p now m).expected_sequence = p.sequence + 1) ∧
    (handle_new_packet ⟨15, List.replicate 50 512, 75, 0⟩ ⟨"", 0⟩
        ⟨⟨[], []⟩, none, none, 11, initLiveState, [], ""⟩).log = ["Pulse Normal"] ∧
    (handle_new_packet ⟨15, List.replicate 50 512, 75, 0⟩ ⟨"", 0⟩
        ⟨⟨[], []⟩, none, none, 11, initLiveState, [], ""⟩).expected_sequence = 16 := by
  have hgen : ∀ (m : MainState) (p : LivePacket) (now : PyDateTime),
      (handle_new_packet p now m).log = m.log ++
        (match (new_data_received p m.live).2 with
          | some msg => [msg]
          | none => []) ∧
      (handle_new_packet p now m).expected_sequence = p.sequence + 1 := by
    intro m p now
    unfold handle_new_packet
    rcases hmsg : (new_data_received p m.live).2 with _ | msg <;>
      rcases hu : m.current_user with _ | u <;>
        simp [hmsg, hu]
  refine ⟨hgen, ?_, ?_⟩
  · have h := (hgen ⟨⟨[], []⟩, none, none, 11, initLiveState, [], ""⟩
      ⟨15, List.replicate 50 512, 75, 0⟩ ⟨"", 0⟩).1
    have hl : (⟨⟨[], []⟩, none, none, 11, initLiveState, [], ""⟩ : MainState).live =
        initLiveState := rfl
    rw [hl] at h
    rw [new_data_msg_normal ⟨15, List.replicate 50 512, 75, 0⟩ initLiveState
      (by norm_num) (by norm_num [initLiveState]) (by norm_num [initLiveState])] at h
    simpa using h
  · exact (hgen _ _ _).2

/-! ## `HistoryTab.apply_filters` (`src/gui/ui_tabs/history_tab.py`
lines 195–235)

`_parse_session_date` calls
`datetime.fromisoformat(str(start_date).replace('Z', '+00:00')).date()`
with NO exception handler: an unparsable start date raises `ValueError`
out of `apply_filters`.  The `Except` result models that propagation.
The guard `if not session_date` in the loop is dead code (a `date`
object is always truthy, and `fromisoformat` raises rather than
returning `None`). -/

/-- A `datetime.date`. -/
structure PyDate where
  year : Nat
  month : Nat
  day : Nat
  deriving DecidableEq

/-- Dates compare lexicographically by (year, month, day). -/
def PyDate.key (d : PyDate) : Nat :=
  d.year * 10000 + d.month * 100 + d.day

/-- `str.replace('Z', '+00:00')`, specialized to its single-character
pattern (every `'Z'` is replaced). -/
def replaceZ : List Char → List Char
  | [] => []
  | c :: rest =>
    if c = 'Z' then '+' :: '0' :: '0' :: ':' :: '0' :: '0' :: replaceZ rest
    else c :: replaceZ rest

/-- `str(x)` for a value that is a string or `None`. -/
def pyStr : Option String → String
  | some s => s
  | none => "None"

/-- `datetime.fromisoformat(...).date()`, modelled on the date portion:
the string must open with `YYYY-MM-DD` (digits in range, month 1–12, day
1–31) followed by nothing or by a `'T'`/`' '` separator and a
time-of-day, which the model accepts without further validation.  An
input not of this shape raises `ValueError` (`none` here). -/
def fromisoformat (s : String) : Option PyDate :=
  match s.data with
  | y1 :: y2 :: y3 :: y4 :: s1 :: m1 :: m2 :: s2 :: d1 :: d2 :: rest =>
    if y1.isDigit ∧ y2.isDigit ∧ y3.isDigit ∧ y4.isDigit ∧ s1 = '-' ∧
        m1.isDigit ∧ m2.isDigit ∧ s2 = '-' ∧ d1.isDigit ∧ d2.isDigit then
      let y := (y1.toNat - 48) * 1000 + (y2.toNat - 48) * 100 +
        (y3.toNat - 48) * 10 + (y4.toNat - 48)
      let mo := (m1.toNat - 48) * 10 + (m2.toNat - 48)
      let d := (d1.toNat - 48) * 10 + (d2.toNat - 48)
      if 1 ≤ mo ∧ mo ≤ 12 ∧ 1 ≤ d ∧ d ≤ 31 then
        match rest with
        | [] => some ⟨y, mo, d⟩
        | c :: _ => if c = 'T' ∨ c = ' ' then some ⟨y, mo, d⟩ else none
      else none
    else none
  | _ => none

/-- `HistoryTab._parse_session_date`. -/
def parse_session_date (start_date : Option String) : Option PyDate :=
  fromisoformat ⟨replaceZ (pyStr start_date).data⟩

/-- The six `SORT_OPTIONS` entries. -/
inductive SortOrder where
  | dateNewest
  | dateOldest
  | bpmHighLow
  | bpmLowHigh
  | durLongShort
  | durShortLong
  deriving DecidableEq

/-- The `(key, reverse)` pairs of `SORT_OPTIONS` as an order on sessions
(date orders key on the raw `s["start"]` string; `reverse=True` is the
descending order; Python's stable `list.sort` is modelled by a stable
merge sort). -/
def sortComparator : SortOrder → Session → Session → Bool
  | .dateNewest => fun a b => decide (b.start.getD "" ≤ a.start.getD "")
  | .dateOldest => fun a b => decide (a.start.getD "" ≤ b.start.getD "")
  | .bpmHighLow => fun a b => decide (b.avg_bpm.getD 0 ≤ a.avg_bpm.getD 0)
  | .bpmLowHigh => fun a b => decide (a.avg_bpm.getD 0 ≤ b.avg_bpm.getD 0)
  | .durLongShort => fun a b => decide (b.duration_minutes.getD 0 ≤ a.duration_minutes.getD 0)
  | .durShortLong => fun a b => decide (a.duration_minutes.getD 0 ≤ b.duration_minutes.getD 0)

/-- The filter panel values read at the top of `apply_filters`.
`sort_by` is the combo text resolved against `SORT_OPTIONS` (`none`
models a text not among the six keys, for which the source skips
sorting). -/
structure HistoryFilters where
  from_date : PyDate
  to_date : PyDate
  min_bpm : ℚ
  max_bpm : ℚ
  min_duration : ℚ
  max_duration : ℚ
  abnormal_only : Bool
  sort_by : Option SortOrder
  deriving DecidableEq

/-- One loop body of `apply_filters` after the date parse: the inclusive
date range, the avg-BPM range, the duration range, and the
abnormal-only flag. -/
def sessionKeep (f : HistoryFilters) (d : PyDate) (s : Session) : Bool :=
  decide (f.from_date.key ≤ d.key ∧ d.key ≤ f.to_date.key) &&
  decide (f.min_bpm ≤ s.avg_bpm.getD 0 ∧ s.avg_bpm.getD 0 ≤ f.max_bpm) &&
  decide (f.min_duration ≤ s.duration_minutes.getD 0 ∧
    s.duration_minutes.getD 0 ≤ f.max_duration) &&
  !(f.abnormal_only && decide (s.abnormal_low.getD 0 = 0) &&
    decide (s.abnormal_high.getD 0 = 0))

/-- The `for session in self.all_sessions` loop: the first session whose
start date fails to parse raises (`Except.error`); otherwise the kept
sessions are collected in order. -/
def filterLoop (f : HistoryFilters) : List Session → Except String (List Session)
  | [] => Except.ok []
  | s :: rest =>
    match parse_session_date s.start with
    | none => Except.error "ValueError: Invalid isoformat string"
    | some d =>
      match filterLoop f rest with
      | Except.error e => Except.error e
      | Except.ok tail => Except.ok (if sessionKeep f d s then s :: tail else tail)

/-- `apply_filters`: empty snapshot → empty table; otherwise run the
filter loop (propagating a date-parse `ValueError`) and sort with the
selected order when it is one of the six `SORT_OPTIONS` keys. -/
def apply_filters (f : HistoryFilters) (all_sessions : List Session) :
    Except String (List Session) :=
  if all_sessions.isEmpty then Except.ok []
  else
    match filterLoop f all_sessions with
    | Except.error e => Except.error e
    | Except.ok filtered =>
      Except.ok
        (match f.sort_by with
          | some o => filtered.mergeSort (sortComparator o)
          | none => filtered)

instance {α β : Type} [DecidableEq α] [DecidableEq β] :
    DecidableEq (Except α β) := fun a b =>
  match a, b with
  | .error x, .error y => decidable_of_iff (x = y) (by simp)
  | .error _, .ok _ => isFalse (by simp)
  | .ok _, .error _ => isFalse (by simp)
  | .ok x, .ok y => decidable_of_iff (x = y) (by simp)

theorem filterLoop_all_parse (f : HistoryFilters) (sessions : List Session)
    (h : ∀ s ∈ sessions, (parse_session_date s.start).isSome) :
    filterLoop f sessions = Except.ok (sessions.filter fun s =>
      match parse_session_date s.start with
      | some d => sessionKeep f d s
      | none => false) := by
  induction sessions with
  | nil => rfl
  | cons s rest ih =>
    obtain ⟨d, hd⟩ := Option.isSome_iff_exists.mp (h s (by simp))
    rw [filterLoop, hd, ih (fun q hq => h q (by simp [hq]))]
    by_cases hk : sessionKeep f d s = true <;>
      simp [List.filter_cons, hd, hk]

theorem filterLoop_error (f : HistoryFilters) (pre : List Session) (bad : Session)
    (post : List Session) (hpre : ∀ s ∈ pre, (parse_session_date s.start).isSome)
    (hbad : parse_session_date bad.start = none) :
    filterLoop f (pre ++ bad :: post) =
      Except.error "ValueError: Invalid isoformat string" := by
  induction pre with
  | nil => simp [filterLoop, hbad]
  | cons s rest ih =>
    obtain ⟨d, hd⟩ := Option.isSome_iff_exists.mp (hpre s (by simp))
    rw [List.cons_append, filterLoop, hd, ih (fun q hq => hpre q (by simp [hq]))]

/-- C7 counterexample: with a wide-open filter over one parsable session
and one session whose start date is `"not-a-date"`, `apply_filters`
raises `ValueError` (propagated from `datetime.fromisoformat`) instead
of returning the filtered list with the unparsable session excluded, as
the claim states. -/
theorem apply_filters_unparsable_counterexample :
    apply_filters
        ⟨⟨2025, 1, 1⟩, ⟨2025, 12, 31⟩, 40, 200, 0, 600, false, none⟩
        [mkSession (some "2025-01-02T10:00:00Z") (some 5) (some 80) (some 0) (some 0),
         mkSession (some "not-a-date") (some 5) (some 80) (some 0) (some 0)] =
      Except.error "ValueError: Invalid isoformat string" ∧
    apply_filters
        ⟨⟨2025, 1, 1⟩, ⟨2025, 12, 31⟩, 40, 200, 0, 600, false, none⟩
        [mkSession (some "2025-01-02T10:00:00Z") (some 5) (some 80) (some 0) (some 0),
         mkSession (some "not-a-date") (some 5) (some 80) (some 0) (some 0)] ≠
      Except.ok
        [mkSession (some "2025-01-02T10:00:00Z") (some 5) (some 80) (some 0) (some 0)] := by
  constructor <;> decide

/-- C7 (amended): when every session's start date parses (tolerating a
trailing "Z" via the `+00:00` rewrite), `apply_filters` keeps exactly
the sessions passing the inclusive date-range, BPM-range, duration-range
and abnormal-only checks (up to the selected sort order); but a session
with an unparsable start date makes the whole call raise `ValueError`
(the session is NOT silently excluded). -/
theorem apply_filters_spec (f : HistoryFilters) (sessions : List Session) :
    ((∀ s ∈ sessions, (parse_session_date s.start).isSome) →
      ∃ l, apply_filters f sessions = Except.ok l ∧
        l.Perm (sessions.filter fun s =>
          match parse_session_date s.start with
          | some d => sessionKeep f d s
          | none => false)) ∧
    (∀ (pre : List Session) (bad : Session) (post : List Session),
      sessions = pre ++ bad :: post →
      (∀ s ∈ pre, (parse_session_date s.start).isSome) →
      parse_session_date bad.start = none →
      apply_filters f sessions =
        Except.error "ValueError: Invalid isoformat string") := by
  constructor
  · intro h
    by_cases hemp : sessions.isEmpty
    · rw [List.isEmpty_iff] at hemp
      subst hemp
      exact ⟨[], rfl, by simp⟩
    · rw [apply_filters, if_neg hemp, filterLoop_all_parse f sessions h]
      rcases f.sort_by with _ | o
      · exact ⟨_, rfl, List.Perm.refl _⟩
      · exact ⟨_, rfl, List.mergeSort_perm _ _⟩
  · intro pre bad post hsplit hpre hbad
    subst hsplit
    have hemp : ¬(pre ++ bad :: post).isEmpty := by
      rw [List.isEmpty_iff]
      simp
    rw [apply_filters, if_neg hemp, filterLoop_error f pre bad post hpre hbad]

/-- Witness for `apply_filters_spec`: the concrete unparsable session
makes the concrete call raise, and the "Z"-suffixed parsable date indeed
parses. -/
theorem apply_filters_spec_witness :
    apply_filters
        ⟨⟨2025, 1, 1⟩, ⟨2025, 12, 31⟩, 40, 200, 0, 600, false, none⟩
        [mkSession (some "2025-01-02T10:00:00Z") (some 5) (some 80) (some 0) (some 0),
         mkSession (some "not-a-date") (some 5) (some 80) (some 0) (some 0)] =
      Except.error "ValueError: Invalid isoformat string" ∧
    parse_session_date (some "2025-01-02T10:00:00Z") = some ⟨2025, 1, 2⟩ :=
  ⟨(apply_filters_spec
      ⟨⟨2025, 1, 1⟩, ⟨2025, 12, 31⟩, 40, 200, 0, 600, false, none⟩
      [mkSession (some "2025-01-02T10:00:00Z") (some 5) (some 80) (some 0) (some 0),
       mkSession (some "not-a-date") (some 5) (some 80) (some 0) (some 0)]).2
    [mkSession (some "2025-01-02T10:00:00Z") (some 5) (some 80) (some 0) (some 0)]
    (mkSession (some "not-a-date") (some 5) (some 80) (some 0) (some 0)) []
    rfl (by decide) (by decide), by decide⟩

end PPG
